import Mathlib

/-!
Shallow embedding of the SSolar-GOA `solo` radiative-transfer engine
(`solo/api/Geometry.py`, `solo/api/Atmosphere.py`, `solo/radtran.py`).

Arrays are modelled as follows: the per-scenario fields of the immutable
records are lists of rationals (every concrete Python float input is a
rational number), 1-dimensional wavelength inputs are lists of rationals,
`mu0` inputs and all derived optical quantities are real-valued, and a
2-dimensional `(scenario, wavelength)` result is an `Arr2`: an explicit
row count, column count, and a total entry function.  NumPy's
broadcasting of a `(n, 1)` column against a `(m, k)` grid is modelled by
`bcastIdx`/`bdim`.  Fallible operations return `Except String`, carrying
the error messages of the source.
-/

namespace SSolar

/-- Index used when an axis of extent `n` is broadcast: an axis of extent 1
repeats its only element. Mirrors NumPy broadcasting of a length-1 axis. -/
def bcastIdx (n i : ℕ) : ℕ := if n = 1 then 0 else i

/-- Extent of the axis resulting from broadcasting extents `n` and `m`
(assuming they are compatible, i.e. equal or one of them is 1). -/
def bdim (n m : ℕ) : ℕ := if n = 1 then m else n

theorem bcastIdx_of_lt {n i : ℕ} (h : i < n) : bcastIdx n i = i := by
  unfold bcastIdx
  split
  · omega
  · rfl

theorem bdim_self (n : ℕ) : bdim n n = n := by
  unfold bdim
  split <;> simp_all

/-- A 2-dimensional real array of shape `(rows, cols)` with a total entry
function (entries outside the range are irrelevant defaults). -/
structure Arr2 where
  rows : ℕ
  cols : ℕ
  ent : ℕ → ℕ → ℝ

/-- The all-zero empty array, used as a default. -/
def Arr2.zero : Arr2 := ⟨0, 0, fun _ _ => 0⟩

/-- Broadcast-aware entry access: an `Arr2` read as if broadcast along any
length-1 axis, as NumPy does when combining arrays elementwise. -/
noncomputable def Arr2.bent (a : Arr2) (i j : ℕ) : ℝ :=
  a.ent (bcastIdx a.rows i) (bcastIdx a.cols j)

/-- Elementwise product with NumPy broadcasting. -/
noncomputable def Arr2.bmul (a b : Arr2) : Arr2 :=
  ⟨bdim a.rows b.rows, bdim a.cols b.cols, fun i j => a.bent i j * b.bent i j⟩

/-- Elementwise difference with NumPy broadcasting. -/
noncomputable def Arr2.bsub (a b : Arr2) : Arr2 :=
  ⟨bdim a.rows b.rows, bdim a.cols b.cols, fun i j => a.bent i j - b.bent i j⟩

/-- Elementwise sum with NumPy broadcasting. -/
noncomputable def Arr2.badd (a b : Arr2) : Arr2 :=
  ⟨bdim a.rows b.rows, bdim a.cols b.cols, fun i j => a.bent i j + b.bent i j⟩

/-- A 0- or 1-dimensional NumPy input: a Python scalar or a 1-d sequence
of (float, hence rational) values. `np.shape` of a scalar is `()`. -/
inductive NPIn where
  | scalar (x : ℚ)
  | vector (xs : List ℚ)
deriving DecidableEq

/-- `np.shape`: `none` models the empty shape tuple `()` of a scalar,
`some n` models the 1-d shape `(n,)`. -/
def NPIn.shape : NPIn → Option ℕ
  | .scalar _ => none
  | .vector xs => some xs.length

/-- `np.atleast_1d`: promote a scalar to a length-1 array. -/
def NPIn.atleast1d : NPIn → List ℚ
  | .scalar x => [x]
  | .vector xs => xs

/-- Elements of the input, for the `np.any(... < 0)`-style range checks
(which inspect the raw values and are insensitive to the 0/1-d shape). -/
def NPIn.vals : NPIn → List ℚ := NPIn.atleast1d

/-- The `Atmosphere` record: eight per-scenario fields, each stored as a
1-dimensional array (`solo/api/Atmosphere.py`, class `Atmosphere`). -/
structure Atmosphere where
  p : List ℚ
  rho : List ℚ
  o3 : List ℚ
  h2o : List ℚ
  alpha : List ℚ
  beta : List ℚ
  w0 : List ℚ
  g : List ℚ
deriving DecidableEq

/-- `Atmosphere.nscen`: the number of scenarios, `np.shape(self.p)[0]`. -/
def Atmosphere.nscen (a : Atmosphere) : ℕ := a.p.length

/-- The common 1-d length of the shared shape: `np.full(shape=set_shapes)`
followed by `np.atleast_1d` yields one element for the scalar shape `()`
and `k` elements for the 1-d shape `(k,)`. -/
def NPIn.n1d : NPIn → ℕ
  | .scalar _ => 1
  | .vector xs => xs.length

/-- The stored `w0` field: the validated input promoted to 1-d, or the
default 0.90 filled to the common shape when omitted. -/
def fillW0 (w0 : Option NPIn) (n : ℕ) : List ℚ :=
  match w0 with
  | some v => v.atleast1d
  | none => List.replicate n (90 / 100 : ℚ)

/-- The stored `g` field: the validated input promoted to 1-d, or the
default 0.85 filled to the common shape when omitted. -/
def fillG (g : Option NPIn) (n : ℕ) : List ℚ :=
  match g with
  | some u => u.atleast1d
  | none => List.replicate n (85 / 100 : ℚ)

/-- `Atmosphere.__new__`: shape-consistency check (the set of the inputs'
`np.shape`s has at most one element, i.e. every shape equals the first),
range checks, default filling for `w0`/`g`, and promotion of every field
to a 1-d array. -/
def Atmosphere.new (p rho o3 h2o alpha beta : NPIn) (w0 g : Option NPIn) :
    Except String Atmosphere :=
  let items : List NPIn :=
    [p, rho, o3, h2o, alpha, beta] ++ (w0.toList ++ g.toList)
  if items.any fun x => x.shape ≠ p.shape then
    .error "size mismatch among input arguments"
  else if p.vals.any fun x => x < 0 then .error "pressure out of range"
  else if (rho.vals.any fun x => x < 0) || (rho.vals.any fun x => x > 1) then
    .error "albedo out of range"
  else if o3.vals.any fun x => x < 0 then .error "ozone out of range"
  else if h2o.vals.any fun x => x < 0 then .error "water vapour out of range"
  else if alpha.vals.any fun x => x < 0 then .error "Angstrom alpha out of range"
  else if beta.vals.any fun x => x < 0 then .error "Angstrom beta out of range"
  else if match w0 with
    | some v => (v.vals.any fun x => x < 0) || (v.vals.any fun x => x > 1)
    | none => false then
    .error "single scattering albedo out of range"
  else if match g with
    | some u => u.vals.any fun x => |x| > 1
    | none => false then
    .error "asymmetry parameter out of range"
  else
    .ok ⟨p.atleast1d, rho.atleast1d, o3.atleast1d, h2o.atleast1d,
         alpha.atleast1d, beta.atleast1d, fillW0 w0 p.n1d, fillG g p.n1d⟩

/-- Bates' formula for the Rayleigh optical depth of one scenario at one
wavelength (`Atmosphere.tau_rayleigh`): the reference-pressure formula
scaled by `p / 1013`, with `c = [117.2594, -1.3215, 0.000320, -0.000076]`
and `div = c0 l^4 + c1 l^2 + c2 + c3 / l^4`. -/
noncomputable def tauRayElem (p lam : ℝ) : ℝ :=
  (p / 1013) /
    (117.2594 * lam ^ 4 + (-1.3215) * lam ^ 2 + 0.000320 + (-0.000076) / lam ^ 4)

/-- Rayleigh contribution to the atmospheric albedo for one optical depth
(`Atmosphere.tau_rayleigh`, `return_albedo` branch). -/
noncomputable def rayAlbElem (tau : ℝ) : ℝ :=
  tau * (1 - Real.exp (-2 * tau)) / (2 + tau)

/-- `Atmosphere.tau_rayleigh`: the `(nscen, nwvln)` grid of Rayleigh
optical depths (`pressure[:, None]` broadcast against the wavelengths). -/
noncomputable def Atmosphere.tau_rayleigh (a : Atmosphere) (wvln_um : List ℚ) : Arr2 :=
  ⟨a.nscen, wvln_um.length,
   fun i j => tauRayElem ((a.p.getD i 0 : ℚ) : ℝ) ((wvln_um.getD j 0 : ℚ) : ℝ)⟩

/-- The optional second output of `Atmosphere.tau_rayleigh`: the Rayleigh
contribution to the atmospheric albedo, per scenario and wavelength. -/
noncomputable def Atmosphere.tau_rayleigh_salb (a : Atmosphere) (wvln_um : List ℚ) : Arr2 :=
  ⟨a.nscen, wvln_um.length,
   fun i j => rayAlbElem ((a.tau_rayleigh wvln_um).ent i j)⟩

/-- The full return value of `Atmosphere.tau_rayleigh`: the optical-depth
grid, plus the albedo grid when `return_albedo` is set. -/
noncomputable def Atmosphere.tau_rayleigh_out (a : Atmosphere) (wvln_um : List ℚ)
    (return_albedo : Bool) : Arr2 × Option Arr2 :=
  (a.tau_rayleigh wvln_um,
   if return_albedo then some (a.tau_rayleigh_salb wvln_um) else none)

/-- Angstrom's power law for the aerosol optical depth of one scenario at
one wavelength (`Atmosphere.tau_aerosols`): `beta / lam ** alpha`. -/
noncomputable def tauAerElem (alpha beta lam : ℝ) : ℝ := beta / lam ^ alpha

/-- Aerosol contribution to the atmospheric albedo for one scenario
(`Atmosphere.tau_aerosols`, `return_albedo` branch), with the reduced
asymmetry factor `(1 - g) * w0`. -/
noncomputable def aerAlbElem (g w0 tau : ℝ) : ℝ :=
  ((1 - g) * w0) * tau / (2 + ((1 - g) * w0) * tau) *
    (1 + Real.exp (-(((1 - g) * w0) * tau)))

/-- `Atmosphere.tau_aerosols`: the `(nscen, nwvln)` grid of aerosol
optical depths. -/
noncomputable def Atmosphere.tau_aerosols (a : Atmosphere) (wvln_um : List ℚ) : Arr2 :=
  ⟨a.nscen, wvln_um.length,
   fun i j => tauAerElem ((a.alpha.getD i 0 : ℚ) : ℝ) ((a.beta.getD i 0 : ℚ) : ℝ)
     ((wvln_um.getD j 0 : ℚ) : ℝ)⟩

/-- The optional second output of `Atmosphere.tau_aerosols`: the aerosol
contribution to the atmospheric albedo. -/
noncomputable def Atmosphere.tau_aerosols_salb (a : Atmosphere) (wvln_um : List ℚ) : Arr2 :=
  ⟨a.nscen, wvln_um.length,
   fun i j => aerAlbElem ((a.g.getD i 0 : ℚ) : ℝ) ((a.w0.getD i 0 : ℚ) : ℝ)
     ((a.tau_aerosols wvln_um).ent i j)⟩

/-- Error message raised when the length of `mu0` fits neither the
broadcasting rule nor the scenario count (`IndexError` in the source). -/
def mu0MismatchMsg : String := "mismatch in shapes of mu0 and the Atmosphere instance"

/-- The condition under which every transmittance method raises the
scenario-count mismatch error: the check is skipped entirely when the
Atmosphere holds a single scenario. -/
def Atmosphere.mu0Mismatch (a : Atmosphere) (mu0 : List ℝ) : Prop :=
  a.nscen ≠ 1 ∧ mu0.length ≠ 1 ∧ mu0.length ≠ a.nscen

instance (a : Atmosphere) (mu0 : List ℝ) : Decidable (a.mu0Mismatch mu0) := by
  unfold Atmosphere.mu0Mismatch
  infer_instance

/-- The three transmittance grids returned by the `trn_*` scattering
methods, plus the optional atmospheric-albedo grid. -/
structure TrnOut where
  glb : Arr2
  dir : Arr2
  dif : Arr2
  salb : Option Arr2

/-- The albedo component of a `TrnOut`, with a zero default. -/
noncomputable def TrnOut.alb (t : TrnOut) : Arr2 := t.salb.getD Arr2.zero

/-- Broadcast read of the `mu0` column `np.atleast_1d(mu0)[:, None]`. -/
noncomputable def mu0At (mu0 : List ℝ) (i : ℕ) : ℝ := mu0.getD (bcastIdx mu0.length i) 0

/-- `Atmosphere.trn_rayleigh` after the `mu0` shape check: direct
transmittance `exp(-tau/mu0)`, Sobolev global transmittance, and their
difference, with the optional Rayleigh albedo grid. -/
noncomputable def Atmosphere.trn_rayleigh_core (a : Atmosphere) (wvln_um : List ℚ)
    (mu0 : List ℝ) (return_albedo : Bool) : TrnOut :=
  let R := bdim a.nscen mu0.length
  let tau := a.tau_rayleigh wvln_um
  let tdir : Arr2 := ⟨R, wvln_um.length,
    fun i j => Real.exp (-1 * tau.ent (bcastIdx a.nscen i) j / mu0At mu0 i)⟩
  let tglb : Arr2 := ⟨R, wvln_um.length,
    fun i j => ((2 / 3 + mu0At mu0 i) + (2 / 3 - mu0At mu0 i) * tdir.ent i j) /
      (4 / 3 + tau.ent (bcastIdx a.nscen i) j)⟩
  ⟨tglb, tdir, tglb.bsub tdir,
   if return_albedo then some (a.tau_rayleigh_salb wvln_um) else none⟩

/-- `Atmosphere.trn_rayleigh`: shape check, then the Rayleigh grids. -/
noncomputable def Atmosphere.trn_rayleigh (a : Atmosphere) (wvln_um : List ℚ)
    (mu0 : List ℝ) (return_albedo : Bool) : Except String TrnOut :=
  if a.mu0Mismatch mu0 then .error mu0MismatchMsg
  else .ok (a.trn_rayleigh_core wvln_um mu0 return_albedo)

/-- Ambartsumian two-stream global transmittance for a medium of optical
depth `tau`, single-scattering albedo `w0` and asymmetry parameter `g`:
`K = sqrt((1-w0)(1-w0 g))`, `r0 = (K-1+w0)/(K+1-w0)`,
`Tglb = (1-r0^2) Tdir^K / (1-(r0 Tdir^K)^2)` with `Tdir = exp(-tau/mu0)`. -/
noncomputable def ambGlb (tau w0 g mu : ℝ) : ℝ :=
  let ak := Real.sqrt ((1 - w0) * (1 - w0 * g))
  let r0 := (ak - 1 + w0) / (ak + 1 - w0)
  let tdir_k := Real.exp (-1 * tau / mu) ^ ak
  (1 - r0 ^ 2) * tdir_k / (1 - (r0 * tdir_k) ^ 2)

/-- Effective optical depth used by `Atmosphere.trn_aerosols`: the aerosol
optical depth, or the Rayleigh-aerosol sum when `coupling` is set. -/
noncomputable def Atmosphere.aerTau (a : Atmosphere) (wvln_um : List ℚ)
    (coupling : Bool) (i j : ℕ) : ℝ :=
  if coupling then
    (a.tau_rayleigh wvln_um).ent i j + (a.tau_aerosols wvln_um).ent i j
  else (a.tau_aerosols wvln_um).ent i j

/-- Effective asymmetry parameter used by `Atmosphere.trn_aerosols`:
`g` itself, or the optical-depth-weighted `tau_aer * g / tau_total`
when `coupling` is set. -/
noncomputable def Atmosphere.aerG (a : Atmosphere) (wvln_um : List ℚ)
    (coupling : Bool) (i j : ℕ) : ℝ :=
  if coupling then
    (a.tau_aerosols wvln_um).ent i j * ((a.g.getD i 0 : ℚ) : ℝ) /
      a.aerTau wvln_um coupling i j
  else ((a.g.getD i 0 : ℚ) : ℝ)

/-- Effective single-scattering albedo used by `Atmosphere.trn_aerosols`:
`w0` itself, or `(tau_ray + w0 * tau_aer) / tau_total` when `coupling`
is set. -/
noncomputable def Atmosphere.aerW0 (a : Atmosphere) (wvln_um : List ℚ)
    (coupling : Bool) (i j : ℕ) : ℝ :=
  if coupling then
    ((a.tau_rayleigh wvln_um).ent i j +
        ((a.w0.getD i 0 : ℚ) : ℝ) * (a.tau_aerosols wvln_um).ent i j) /
      a.aerTau wvln_um coupling i j
  else ((a.w0.getD i 0 : ℚ) : ℝ)

/-- `Atmosphere.trn_aerosols` after the shape checks: Ambartsumian global
transmittance of the (optionally Rayleigh-coupled) aerosol medium, the
direct transmittance `exp(-tau/mu0)`, their difference, and the optional
albedo grid (the sum of both contributions when `coupling` is set). -/
noncomputable def Atmosphere.trn_aerosols_core (a : Atmosphere) (wvln_um : List ℚ)
    (mu0 : List ℝ) (return_albedo coupling : Bool) : TrnOut :=
  let R := bdim a.nscen mu0.length
  let tdir : Arr2 := ⟨R, wvln_um.length,
    fun i j => Real.exp (-1 * a.aerTau wvln_um coupling (bcastIdx a.nscen i) j /
      mu0At mu0 i)⟩
  let tglb : Arr2 := ⟨R, wvln_um.length,
    fun i j => ambGlb (a.aerTau wvln_um coupling (bcastIdx a.nscen i) j)
      (a.aerW0 wvln_um coupling (bcastIdx a.nscen i) j)
      (a.aerG wvln_um coupling (bcastIdx a.nscen i) j) (mu0At mu0 i)⟩
  ⟨tglb, tdir, tglb.bsub tdir,
   if return_albedo then
     some (if coupling then
       (a.tau_rayleigh_salb wvln_um).badd (a.tau_aerosols_salb wvln_um)
     else a.tau_aerosols_salb wvln_um)
   else none⟩

/-- `Atmosphere.trn_aerosols`: shape check, then the aerosol grids. -/
noncomputable def Atmosphere.trn_aerosols (a : Atmosphere) (wvln_um : List ℚ)
    (mu0 : List ℝ) (return_albedo coupling : Bool) : Except String TrnOut :=
  if a.mu0Mismatch mu0 then .error mu0MismatchMsg
  else .ok (a.trn_aerosols_core wvln_um mu0 return_albedo coupling)

/-- `Atmosphere.trn_mixture`: with `coupling` it returns the coupled
aerosol call directly; otherwise it multiplies the independent Rayleigh
and aerosol transmittances, takes `Tdif = Tglb - Tdir`, and sums the
albedo contributions. -/
noncomputable def Atmosphere.trn_mixture (a : Atmosphere) (wvln_um : List ℚ)
    (mu0 : List ℝ) (return_albedo coupling : Bool) : Except String TrnOut :=
  if coupling then a.trn_aerosols wvln_um mu0 return_albedo true
  else
    match a.trn_rayleigh wvln_um mu0 return_albedo with
    | .error e => .error e
    | .ok r =>
      match a.trn_aerosols wvln_um mu0 return_albedo false with
      | .error e => .error e
      | .ok ae =>
        .ok ⟨r.glb.bmul ae.glb, r.dir.bmul ae.dir,
             (r.glb.bmul ae.glb).bsub (r.dir.bmul ae.dir),
             if return_albedo then some (r.alb.badd ae.alb) else none⟩

/-- A Python object in a returned tuple: an array or a nested tuple. -/
inductive PyObj where
  | arr (a : Arr2)
  | tup (xs : List PyObj)

/-- The tuple returned by `Atmosphere.trn_rayleigh`:
`(tglb, tdir, tdif) + salb`, where `salb` is `(array,)` when
`return_albedo` is set and the empty tuple `()` otherwise, so the result
has 3 or 4 components. -/
noncomputable def Atmosphere.trn_rayleigh_py (a : Atmosphere) (wvln_um : List ℚ)
    (mu0 : List ℝ) (return_albedo : Bool) : Except String (List PyObj) :=
  (a.trn_rayleigh wvln_um mu0 return_albedo).map fun t =>
    [.arr t.glb, .arr t.dir, .arr t.dif] ++
      (match t.salb with | some s => [.arr s] | none => [])

/-- The tuple returned by `Atmosphere.trn_aerosols`: the source rebinds
`salb = (salb,)` unconditionally, so the result is always a 4-tuple whose
fourth component is the empty tuple `()` when `return_albedo` is not set. -/
noncomputable def Atmosphere.trn_aerosols_py (a : Atmosphere) (wvln_um : List ℚ)
    (mu0 : List ℝ) (return_albedo coupling : Bool) : Except String (List PyObj) :=
  (a.trn_aerosols wvln_um mu0 return_albedo coupling).map fun t =>
    [.arr t.glb, .arr t.dir, .arr t.dif] ++
      [match t.salb with | some s => .arr s | none => .tup []]

/-- Python's `a, b, c = xs` tuple unpacking of exactly three values:
fails unless the tuple has exactly three components. -/
def unpack3 : List PyObj → Option (PyObj × PyObj × PyObj)
  | [a, b, c] => some (a, b, c)
  | _ => none

/-- The molecular absorption-coefficient table (`ABSCOEF`): reference
wavelengths in nm, water-vapour coefficient, water-vapour exponent, ozone
cross-section and oxygen coefficient rows.  The table is external data
loaded once from `dat/abscoef.dat`, so it is a parameter of the model. -/
structure AbsTable where
  wvln : List ℚ
  wcoef : List ℚ
  wexp : List ℚ
  oxsec : List ℚ
  ocoef : List ℚ

/-- `np.interp` over an ascending list of (x, y) pairs: flat extrapolation
outside the range, piecewise-linear interpolation inside. -/
def interpP (x : ℚ) : List (ℚ × ℚ) → ℚ
  | [] => 0
  | [pq] => pq.2
  | pq :: qr :: rest =>
    if x < qr.1 then
      if x ≤ pq.1 then pq.2
      else pq.2 + (qr.2 - pq.2) * (x - pq.1) / (qr.1 - pq.1)
    else interpP x (qr :: rest)

/-- `np.interp (x, xp, fp)`. -/
def interp (x : ℚ) (xp fp : List ℚ) : ℚ := interpP x (xp.zip fp)

/-- The NumPy default absolute tolerance `atol = 1e-8`, written in the
normal form of `ℚ` so that concrete comparisons against it reduce. -/
def atolQ : ℚ := ⟨1, 100000000, by norm_num, Nat.coprime_one_left _⟩

/-- The `np.isclose(y, 0.0)` test with NumPy defaults: `|y| <= atol`
(the `rtol` term vanishes against 0), spelled as a two-sided bound. -/
def iscloseZero (y : ℚ) : Prop := -atolQ ≤ y ∧ y ≤ atolQ

instance (y : ℚ) : Decidable (iscloseZero y) := by
  unfold iscloseZero
  infer_instance

theorem atolQ_eq : atolQ = 1 / 100000000 := by
  unfold atolQ
  rw [Rat.mk'_eq_divInt, Rat.divInt_eq_div]
  norm_num

/-- `iscloseZero` is the NumPy `isclose`-to-zero condition `|y| <= 1e-8`. -/
theorem iscloseZero_iff (y : ℚ) : iscloseZero y ↔ |y| ≤ 1 / 100000000 := by
  unfold iscloseZero
  rw [abs_le, atolQ_eq]

/-- `Atmosphere.trn_water` after the shape checks: interpolated
coefficient and exponent, `T = exp(-(k L / mu0) ^ a)`, forced to 1 where
the interpolated exponent is numerically zero. -/
noncomputable def Atmosphere.trn_water_core (a : Atmosphere) (tbl : AbsTable)
    (wvln : List ℚ) (mu0 : List ℝ) : Arr2 :=
  ⟨bdim a.nscen mu0.length, wvln.length, fun i j =>
    let wexp := interp (wvln.getD j 0) tbl.wvln tbl.wexp
    if iscloseZero wexp then 1
    else Real.exp (-(((interp (wvln.getD j 0) tbl.wvln tbl.wcoef : ℚ) : ℝ) *
      ((a.h2o.getD (bcastIdx a.nscen i) 0 : ℚ) : ℝ) / mu0At mu0 i) ^ ((wexp : ℚ) : ℝ))⟩

/-- `Atmosphere.trn_water`: shape check, then the water-vapour grid. -/
noncomputable def Atmosphere.trn_water (a : Atmosphere) (tbl : AbsTable)
    (wvln : List ℚ) (mu0 : List ℝ) : Except String Arr2 :=
  if a.mu0Mismatch mu0 then .error mu0MismatchMsg
  else .ok (a.trn_water_core tbl wvln mu0)

/-- `Atmosphere.trn_ozone` after the shape checks: interpolated cross
section scaled by Loschmidt's number, ozone path `1e-3 * o3` in cm,
Beer-Lambert `T = exp(-k L / mu0)`. -/
noncomputable def Atmosphere.trn_ozone_core (a : Atmosphere) (tbl : AbsTable)
    (wvln : List ℚ) (mu0 : List ℝ) : Arr2 :=
  ⟨bdim a.nscen mu0.length, wvln.length, fun i j =>
    Real.exp (-(2.687e19 * ((interp (wvln.getD j 0) tbl.wvln tbl.oxsec : ℚ) : ℝ)) *
      (1e-3 * ((a.o3.getD (bcastIdx a.nscen i) 0 : ℚ) : ℝ)) / mu0At mu0 i)⟩

/-- `Atmosphere.trn_ozone`: shape check, then the ozone grid. -/
noncomputable def Atmosphere.trn_ozone (a : Atmosphere) (tbl : AbsTable)
    (wvln : List ℚ) (mu0 : List ℝ) : Except String Arr2 :=
  if a.mu0Mismatch mu0 then .error mu0MismatchMsg
  else .ok (a.trn_ozone_core tbl wvln mu0)

/-- `Atmosphere.trn_oxygen` after the shape checks: interpolated
coefficient, constant path `0.209 * 173200`, empirical exponent `0.5641`,
`T = exp(-(k L / mu0) ^ 0.5641)`.  The row count comes from the `(1, 1)`
path array broadcast against `mu0`, hence equals the length of `mu0`. -/
noncomputable def Atmosphere.trn_oxygen_core (_a : Atmosphere) (tbl : AbsTable)
    (wvln : List ℚ) (mu0 : List ℝ) : Arr2 :=
  ⟨mu0.length, wvln.length, fun i j =>
    Real.exp (-(((interp (wvln.getD j 0) tbl.wvln tbl.ocoef : ℚ) : ℝ) *
      (0.209 * 173200) / mu0At mu0 i) ^ (0.5641 : ℝ))⟩

/-- `Atmosphere.trn_oxygen`: shape check, then the oxygen grid. -/
noncomputable def Atmosphere.trn_oxygen (a : Atmosphere) (tbl : AbsTable)
    (wvln : List ℚ) (mu0 : List ℝ) : Except String Arr2 :=
  if a.mu0Mismatch mu0 then .error mu0MismatchMsg
  else .ok (a.trn_oxygen_core tbl wvln mu0)

/-- The `Geometry` record (`solo/api/Geometry.py`): per-scenario Julian
day, latitude, longitude and solar zenith angle (radians), and the
derived `mu0 = cos(sza)`.  The constructor keeps the inputs' 0- or 1-d
shape, recorded here by `scalar`; a scalar instance stores its single
value as a one-element list. -/
structure Geometry where
  scalar : Bool
  day : List ℚ
  lat : List ℝ
  lon : List ℝ
  sza : List ℝ
  mu0 : List ℝ

/-- Shape consistency of a `Geometry`: all fields share one length, and a
scalar instance holds exactly one scenario (the constructor's
`set_shapes` check). -/
def Geometry.Wf (geo : Geometry) : Prop :=
  geo.day.length = geo.mu0.length ∧ geo.lat.length = geo.mu0.length ∧
    geo.lon.length = geo.mu0.length ∧ geo.sza.length = geo.mu0.length ∧
    (geo.scalar = true → geo.mu0.length = 1)

instance (geo : Geometry) : Decidable geo.Wf := by
  unfold Geometry.Wf
  infer_instance

/-- `Geometry.ngeo`: 1 for a scalar instance, else the field length. -/
def Geometry.ngeo (geo : Geometry) : ℕ := geo.mu0.length

/-- `Geometry.day_angle` for one Julian day: `2 pi (day - 1) / 365`. -/
noncomputable def dayAngle (d : ℚ) : ℝ := 2 * Real.pi * ((d : ℝ) - 1) / 365

/-- The 5-term Fourier series of `Geometry.geometric_factor` evaluated at
one Julian day (`c = [1.00011, 0.03422, 0.00128, 0.000719, 0.000077]`,
second harmonic at `day_angle * 2`). -/
noncomputable def geoFactorVal (d : ℚ) : ℝ :=
  1.00011 + 0.03422 * Real.cos (dayAngle d) + 0.00128 * Real.sin (dayAngle d)
    + 0.000719 * Real.cos (dayAngle d * 2) + 0.000077 * Real.sin (dayAngle d * 2)

/-- A real NumPy array of arbitrary rank: an explicit shape plus the
flattened data.  Used for the shape bookkeeping of `geometric_factor`. -/
structure NDArray where
  shape : List ℕ
  data : List ℝ

/-- The shape of the geometric-factor series before any squeezing: the
shape of the stored `day` field (`()` for a scalar instance). -/
def Geometry.rawShape (geo : Geometry) : List ℕ :=
  if geo.scalar then [] else [geo.day.length]

/-- `Geometry.geometric_factor(squeeze)`: the Fourier-series values with
shape `np.squeeze(...)` (all length-1 axes removed) when `squeeze` is
true, and `np.atleast_1d(...)[None, :, None]` otherwise. -/
noncomputable def Geometry.geometric_factor (geo : Geometry) (squeeze : Bool) : NDArray :=
  let vals := geo.day.map geoFactorVal
  if squeeze then ⟨geo.rawShape.filter (fun n => n ≠ 1), vals⟩
  else ⟨[1, if geo.scalar then 1 else geo.day.length, 1], vals⟩

/-- NumPy's `x[:, None]` on an array: fails with an `IndexError` on a
0-dimensional array, otherwise inserts a length-1 axis after the first. -/
def colSlice (x : NDArray) : Except String NDArray :=
  match x.shape with
  | [] => .error "IndexError: too many indices for array"
  | n :: rest => .ok ⟨n :: 1 :: rest, x.data⟩

/-- The Sun-Earth-distance factor column used by `radtran`:
`geo.geometric_factor()[:, None]`, i.e. the squeezed (default) form with
a new trailing axis. -/
noncomputable def radtranFactor (geo : Geometry) : Except String NDArray :=
  colSlice (geo.geometric_factor true)

/-- The TOA spectrum filtered to the inclusive wavelength window
(`radtran`, step 1). -/
def toaFilter (toa : List (ℚ × ℚ)) (th : ℚ × ℚ) : List (ℚ × ℚ) :=
  toa.filter fun q => decide (th.1 ≤ q.1 ∧ q.1 ≤ th.2)

/-- The filtered TOA wavelengths in nanometers. -/
def toaWvln (toa : List (ℚ × ℚ)) (th : ℚ × ℚ) : List ℚ :=
  (toaFilter toa th).map Prod.fst

/-- The filtered TOA wavelengths converted to microns (`1E-3 * wvln`). -/
def toaWvlnUm (toa : List (ℚ × ℚ)) (th : ℚ × ℚ) : List ℚ :=
  (toaWvln toa th).map fun w => w / 1000

/-- The BOA irradiance grids produced by `radtran`, plus the filtered
wavelength list. -/
structure RadtranOut where
  glb : Arr2
  dir : Arr2
  dif : Arr2
  wvln0 : List ℚ

/-- `radtran(geo, atm, toa_file, wvln_th, coupling)`: filter the TOA
spectrum, scale it by the geometric factor, obtain the mixture
transmittance and albedo, the gas transmittance product, the
amplification factor, and combine them into the three BOA irradiances.
The TOA table read from `toa_file` is passed as the list `toa`. -/
noncomputable def radtran (geo : Geometry) (atm : Atmosphere) (tbl : AbsTable)
    (toa : List (ℚ × ℚ)) (th : ℚ × ℚ) (coupling : Bool) : Except String RadtranOut :=
  let wvln0 := toaWvln toa th
  let irr0q := (toaFilter toa th).map Prod.snd
  match radtranFactor geo with
  | .error e => .error e
  | .ok gfc =>
    let irr0 : Arr2 := ⟨gfc.shape.headI, wvln0.length,
      fun i j => ((irr0q.getD j 0 : ℚ) : ℝ) * gfc.data.getD i 0⟩
    match atm.trn_mixture (toaWvlnUm toa th) geo.mu0 true coupling with
    | .error e => .error e
    | .ok mix =>
      match mix.salb with
      | none => .error "ValueError: not enough values to unpack"
      | some atm_alb =>
        match atm.trn_water tbl wvln0 geo.mu0 with
        | .error e => .error e
        | .ok tdir_wat =>
          match atm.trn_ozone tbl wvln0 geo.mu0 with
          | .error e => .error e
          | .ok tdir_ozo =>
            match atm.trn_oxygen tbl wvln0 geo.mu0 with
            | .error e => .error e
            | .ok tdir_oxy =>
              let tdir_gas := (tdir_wat.bmul tdir_ozo).bmul tdir_oxy
              let amp : Arr2 := ⟨atm.nscen, wvln0.length, fun i j =>
                1 / (1 - ((atm.rho.getD i 0 : ℚ) : ℝ) * atm_alb.ent i j)⟩
              let mu0col : Arr2 := ⟨geo.mu0.length, 1, fun i _ => geo.mu0.getD i 0⟩
              let irr_glb := (((irr0.bmul mu0col).bmul mix.glb).bmul tdir_gas).bmul amp
              let irr_dir := (irr0.bmul mix.dir).bmul tdir_gas
              let irr_dif := irr_glb.bsub (irr_dir.bmul mu0col)
              .ok ⟨irr_glb, irr_dir, irr_dif, wvln0⟩

/-- Whether a fallible call returned a value. -/
def exIsOk {α : Type _} : Except String α → Bool
  | .ok _ => true
  | .error _ => false

/-- The returned value of a fallible call, with a default. -/
def exGet {α : Type _} (e : Except String α) (d : α) : α :=
  match e with
  | .ok a => a
  | .error _ => d

/-- A default `TrnOut`, used only as the `exGet` fallback. -/
def trnDefault : TrnOut := ⟨Arr2.zero, Arr2.zero, Arr2.zero, none⟩

/-- A default `RadtranOut`, used only as the `exGet` fallback. -/
def radDefault : RadtranOut := ⟨Arr2.zero, Arr2.zero, Arr2.zero, []⟩

theorem exGet_of_ok {α : Type _} {e : Except String α} {x : α} (d : α)
    (h : e = .ok x) : exGet e d = x := by
  rw [h]
  rfl

theorem ok_of_isOk {α : Type _} {e : Except String α} (d : α)
    (h : exIsOk e = true) : e = .ok (exGet e d) := by
  cases e with
  | ok a => rfl
  | error m => exact absurd h (by simp [exIsOk])

theorem trn_rayleigh_ok {a : Atmosphere} {wv : List ℚ} {mu0 : List ℝ} {rb : Bool}
    {t : TrnOut} (h : a.trn_rayleigh wv mu0 rb = .ok t) :
    ¬ a.mu0Mismatch mu0 ∧ t = a.trn_rayleigh_core wv mu0 rb := by
  unfold Atmosphere.trn_rayleigh at h
  split at h
  · exact absurd h (by simp)
  · injection h with h2
    exact ⟨by assumption, h2.symm⟩

theorem trn_aerosols_ok {a : Atmosphere} {wv : List ℚ} {mu0 : List ℝ} {rb c : Bool}
    {t : TrnOut} (h : a.trn_aerosols wv mu0 rb c = .ok t) :
    ¬ a.mu0Mismatch mu0 ∧ t = a.trn_aerosols_core wv mu0 rb c := by
  unfold Atmosphere.trn_aerosols at h
  split at h
  · exact absurd h (by simp)
  · injection h with h2
    exact ⟨by assumption, h2.symm⟩

theorem trn_water_ok {a : Atmosphere} {tbl : AbsTable} {wv : List ℚ} {mu0 : List ℝ}
    {t : Arr2} (h : a.trn_water tbl wv mu0 = .ok t) :
    ¬ a.mu0Mismatch mu0 ∧ t = a.trn_water_core tbl wv mu0 := by
  unfold Atmosphere.trn_water at h
  split at h
  · exact absurd h (by simp)
  · injection h with h2
    exact ⟨by assumption, h2.symm⟩

theorem trn_ozone_ok {a : Atmosphere} {tbl : AbsTable} {wv : List ℚ} {mu0 : List ℝ}
    {t : Arr2} (h : a.trn_ozone tbl wv mu0 = .ok t) :
    ¬ a.mu0Mismatch mu0 ∧ t = a.trn_ozone_core tbl wv mu0 := by
  unfold Atmosphere.trn_ozone at h
  split at h
  · exact absurd h (by simp)
  · injection h with h2
    exact ⟨by assumption, h2.symm⟩

theorem trn_oxygen_ok {a : Atmosphere} {tbl : AbsTable} {wv : List ℚ} {mu0 : List ℝ}
    {t : Arr2} (h : a.trn_oxygen tbl wv mu0 = .ok t) :
    ¬ a.mu0Mismatch mu0 ∧ t = a.trn_oxygen_core tbl wv mu0 := by
  unfold Atmosphere.trn_oxygen at h
  split at h
  · exact absurd h (by simp)
  · injection h with h2
    exact ⟨by assumption, h2.symm⟩

end SSolar

namespace SSolar

/-- ## C4.
For every Atmosphere with pressure `p` and every wavelength input in
microns, `tau_rayleigh` returns, per scenario and wavelength, exactly
`tau = (p/1013) / (117.2594 l^4 - 1.3215 l^2 + 0.000320 - 0.000076 l^-4)`,
and the `return_albedo` output is `a = tau (1 - exp (-2 tau)) / (2 + tau)`. -/
theorem tau_rayleigh_bates_formula (a : Atmosphere) (wvln_um : List ℚ)
    (return_albedo : Bool) (i j : ℕ) :
    (a.tau_rayleigh_out wvln_um return_albedo).1.ent i j =
      (((a.p.getD i 0 : ℚ) : ℝ) / 1013) /
        (117.2594 * ((wvln_um.getD j 0 : ℚ) : ℝ) ^ 4
          - 1.3215 * ((wvln_um.getD j 0 : ℚ) : ℝ) ^ 2
          + 0.000320 - 0.000076 / ((wvln_um.getD j 0 : ℚ) : ℝ) ^ 4) ∧
    (return_albedo = true →
      (a.tau_rayleigh_out wvln_um return_albedo).2 = some (a.tau_rayleigh_salb wvln_um) ∧
      (a.tau_rayleigh_salb wvln_um).ent i j =
        (a.tau_rayleigh wvln_um).ent i j *
          (1 - Real.exp (-2 * (a.tau_rayleigh wvln_um).ent i j)) /
          (2 + (a.tau_rayleigh wvln_um).ent i j)) := by
  refine ⟨?_, fun hr => ⟨?_, ?_⟩⟩
  · simp only [Atmosphere.tau_rayleigh_out, Atmosphere.tau_rayleigh, tauRayElem]
    ring_nf
  · simp [Atmosphere.tau_rayleigh_out, hr]
  · simp only [Atmosphere.tau_rayleigh_salb, rayAlbElem]

/-- A single-scenario example atmosphere used as concrete input. -/
def atmEx1 : Atmosphere := ⟨[800], [0], [300], [0], [1], [0], [1], [0]⟩

/-- A two-scenario example atmosphere used as concrete input. -/
def atmEx2 : Atmosphere :=
  ⟨[800, 900], [0, 0], [300, 300], [0, 0], [1, 1], [0, 0], [1, 1], [0, 0]⟩

/-- An example absorption table whose water-vapour exponent row starts at
an exact zero entry. -/
def tblEx : AbsTable := ⟨[300, 400], [1, 1], [0, 1], [0, 0], [0, 0]⟩

/-- Salb of the Rayleigh core without `return_albedo` is absent. -/
theorem trn_rayleigh_core_salb_none (a : Atmosphere) (wv : List ℚ) (mu0 : List ℝ) :
    (a.trn_rayleigh_core wv mu0 false).salb = none := rfl

/-- Salb of the aerosol core without `return_albedo` is absent. -/
theorem trn_aerosols_core_salb_none (a : Atmosphere) (wv : List ℚ) (mu0 : List ℝ)
    (c : Bool) : (a.trn_aerosols_core wv mu0 false c).salb = none := rfl

/-- ## C9.
Without `return_albedo`, `trn_rayleigh` returns exactly a 3-tuple
`(tglb, tdir, tdif)`, whereas `trn_aerosols` returns a 4-tuple whose
fourth component is the empty tuple (the source rebinds `salb = (salb,)`
unconditionally), so unpacking exactly three values from `trn_aerosols`
fails. -/
theorem trn_tuple_arity (a : Atmosphere) (wvln_um : List ℚ) (mu0 : List ℝ)
    (coupling : Bool) (lr la : List PyObj)
    (hr : a.trn_rayleigh_py wvln_um mu0 false = .ok lr)
    (ha : a.trn_aerosols_py wvln_um mu0 false coupling = .ok la) :
    lr.length = 3 ∧ la.length = 4 ∧ la.getD 3 (.arr Arr2.zero) = .tup [] ∧
      unpack3 la = none := by
  unfold Atmosphere.trn_rayleigh_py at hr
  unfold Atmosphere.trn_aerosols_py at ha
  cases hR : a.trn_rayleigh wvln_um mu0 false with
  | error e => rw [hR] at hr; exact absurd hr (by simp [Except.map])
  | ok t =>
    cases hA : a.trn_aerosols wvln_um mu0 false coupling with
    | error e => rw [hA] at ha; exact absurd ha (by simp [Except.map])
    | ok u =>
      rw [hR] at hr
      rw [hA] at ha
      simp only [Except.map] at hr ha
      injection hr with hr2
      injection ha with ha2
      obtain ⟨-, ht⟩ := trn_rayleigh_ok hR
      obtain ⟨-, hu⟩ := trn_aerosols_ok hA
      rw [← hr2, ← ha2, ht, hu, trn_rayleigh_core_salb_none,
        trn_aerosols_core_salb_none]
      refine ⟨rfl, rfl, rfl, rfl⟩

/-- Witness for C9 at a concrete single-scenario call. -/
theorem trn_tuple_arity_witness :
    exIsOk (atmEx1.trn_rayleigh_py [1] [1] false) = true ∧
    exIsOk (atmEx1.trn_aerosols_py [1] [1] false false) = true ∧
    (exGet (atmEx1.trn_rayleigh_py [1] [1] false) []).length = 3 ∧
    unpack3 (exGet (atmEx1.trn_aerosols_py [1] [1] false false) []) = none := by
  refine ⟨rfl, rfl, ?_, ?_⟩
  · exact (trn_tuple_arity atmEx1 [1] [1] false _ _ (ok_of_isOk [] rfl)
      (ok_of_isOk [] rfl)).1
  · exact (trn_tuple_arity atmEx1 [1] [1] false _ _ (ok_of_isOk [] rfl)
      (ok_of_isOk [] rfl)).2.2.2

/-- ## C5 (amended).
For an Atmosphere with more than one scenario (the check is skipped for a
single-scenario instance), a `mu0` whose length is neither 1 nor the
scenario count makes every transmittance operation fail with the
scenario-count mismatch error. -/
theorem trn_mu0_mismatch_error (a : Atmosphere) (tbl : AbsTable) (wvln : List ℚ)
    (mu0 : List ℝ) (rb c : Bool) (hn : a.nscen ≠ 1) (h1 : mu0.length ≠ 1)
    (h2 : mu0.length ≠ a.nscen) :
    a.trn_rayleigh wvln mu0 rb = .error mu0MismatchMsg ∧
    a.trn_aerosols wvln mu0 rb c = .error mu0MismatchMsg ∧
    a.trn_mixture wvln mu0 rb c = .error mu0MismatchMsg ∧
    a.trn_water tbl wvln mu0 = .error mu0MismatchMsg ∧
    a.trn_ozone tbl wvln mu0 = .error mu0MismatchMsg ∧
    a.trn_oxygen tbl wvln mu0 = .error mu0MismatchMsg := by
  have hm : a.mu0Mismatch mu0 := ⟨hn, h1, h2⟩
  have hray : ∀ rb', a.trn_rayleigh wvln mu0 rb' = .error mu0MismatchMsg := by
    intro rb'
    unfold Atmosphere.trn_rayleigh
    rw [if_pos hm]
  have haer : ∀ rb' c', a.trn_aerosols wvln mu0 rb' c' = .error mu0MismatchMsg := by
    intro rb' c'
    unfold Atmosphere.trn_aerosols
    rw [if_pos hm]
  refine ⟨hray rb, haer rb c, ?_, ?_, ?_, ?_⟩
  · unfold Atmosphere.trn_mixture
    cases c with
    | true => simpa using haer rb true
    | false => simp [hray rb, haer rb false]
  · unfold Atmosphere.trn_water
    rw [if_pos hm]
  · unfold Atmosphere.trn_ozone
    rw [if_pos hm]
  · unfold Atmosphere.trn_oxygen
    rw [if_pos hm]

/-- Witness for amended C5: a two-scenario atmosphere with a length-3
`mu0` is rejected by the transmittance operations. -/
theorem trn_mu0_mismatch_error_witness :
    atmEx2.nscen ≠ 1 ∧ ([(1 : ℝ), 1, 1]).length ≠ 1 ∧
    ([(1 : ℝ), 1, 1]).length ≠ atmEx2.nscen ∧
    atmEx2.trn_rayleigh [1] [1, 1, 1] false = .error mu0MismatchMsg ∧
    atmEx2.trn_oxygen tblEx [1] [1, 1, 1] = .error mu0MismatchMsg := by
  refine ⟨by decide, by decide, by decide, ?_, ?_⟩
  · exact (trn_mu0_mismatch_error atmEx2 tblEx [1] [1, 1, 1] false false
      (by decide) (by decide) (by decide)).1
  · exact (trn_mu0_mismatch_error atmEx2 tblEx [1] [1, 1, 1] false false
      (by decide) (by decide) (by decide)).2.2.2.2.2

/-- Counterexample to C5 as stated: for a single-scenario Atmosphere the
shape check is skipped, so a length-2 `mu0` (neither 1 nor matching,
since the scenario count is 1) is accepted by every transmittance
operation instead of failing. -/
theorem trn_mu0_single_scenario_cex :
    exIsOk (atmEx1.trn_rayleigh [1] [1, 2] false) = true ∧
    exIsOk (atmEx1.trn_aerosols [1] [1, 2] false false) = true ∧
    exIsOk (atmEx1.trn_mixture [1] [1, 2] false false) = true ∧
    exIsOk (atmEx1.trn_water tblEx [1] [1, 2]) = true ∧
    exIsOk (atmEx1.trn_ozone tblEx [1] [1, 2]) = true ∧
    exIsOk (atmEx1.trn_oxygen tblEx [1] [1, 2]) = true ∧
    ([(1 : ℝ), 2]).length ≠ 1 ∧ ([(1 : ℝ), 2]).length ≠ atmEx1.nscen := by
  exact ⟨rfl, rfl, rfl, rfl, rfl, rfl, by decide, by decide⟩

/-- ## C8.
Wherever the linearly interpolated water-vapour exponent is numerically
zero (NumPy `isclose` to 0), `trn_water` returns exactly 1. -/
theorem trn_water_unit_at_zero_exponent (a : Atmosphere) (tbl : AbsTable)
    (wvln : List ℚ) (mu0 : List ℝ) (t : Arr2)
    (h : a.trn_water tbl wvln mu0 = .ok t) (i j : ℕ)
    (hz : iscloseZero (interp (wvln.getD j 0) tbl.wvln tbl.wexp)) :
    t.ent i j = 1 := by
  obtain ⟨-, ht⟩ := trn_water_ok h
  subst ht
  simp only [Atmosphere.trn_water_core]
  rw [if_pos hz]

/-- Witness for C8 at a wavelength landing exactly on the zero-exponent
table entry. -/
theorem trn_water_unit_at_zero_exponent_witness :
    exIsOk (atmEx1.trn_water tblEx [300] [1]) = true ∧
    iscloseZero (interp (([(300 : ℚ)]).getD 0 0) tblEx.wvln tblEx.wexp) ∧
    (exGet (atmEx1.trn_water tblEx [300] [1]) Arr2.zero).ent 0 0 = 1 := by
  refine ⟨rfl, by decide, ?_⟩
  exact trn_water_unit_at_zero_exponent atmEx1 tblEx [300] [1] _
    (ok_of_isOk Arr2.zero rfl) 0 0 (by decide)

/-- ## C3.
With coupling disabled, `trn_mixture` returns the elementwise products of
the independently computed Rayleigh and aerosol global and direct
transmittances, the diffuse transmittance `Tglb - Tdir`, and, when
requested, the sum of the Rayleigh and aerosol albedo contributions. -/
theorem trn_mixture_uncoupled_product (a : Atmosphere) (wvln_um : List ℚ)
    (mu0 : List ℝ) (rb : Bool) (t : TrnOut)
    (h : a.trn_mixture wvln_um mu0 rb false = .ok t) (i j : ℕ)
    (hi : i < bdim a.nscen mu0.length) (hj : j < wvln_um.length) :
    t.glb.ent i j =
      (exGet (a.trn_rayleigh wvln_um mu0 rb) trnDefault).glb.ent i j *
        (exGet (a.trn_aerosols wvln_um mu0 rb false) trnDefault).glb.ent i j ∧
    t.dir.ent i j =
      (exGet (a.trn_rayleigh wvln_um mu0 rb) trnDefault).dir.ent i j *
        (exGet (a.trn_aerosols wvln_um mu0 rb false) trnDefault).dir.ent i j ∧
    t.dif.ent i j = t.glb.ent i j - t.dir.ent i j ∧
    (rb = true → i < a.nscen →
      t.alb.ent i j = (a.tau_rayleigh_salb wvln_um).ent i j +
        (a.tau_aerosols_salb wvln_um).ent i j) := by
  unfold Atmosphere.trn_mixture at h
  simp only [Bool.false_eq_true, if_false] at h
  cases hR : a.trn_rayleigh wvln_um mu0 rb with
  | error e => rw [hR] at h; exact absurd h (by simp)
  | ok r =>
    cases hA : a.trn_aerosols wvln_um mu0 rb false with
    | error e => rw [hR, hA] at h; exact absurd h (by simp)
    | ok ae =>
      rw [hR, hA] at h
      injection h with h2
      obtain ⟨-, hr⟩ := trn_rayleigh_ok hR
      obtain ⟨-, ha⟩ := trn_aerosols_ok hA
      subst h2
      simp only [exGet]
      have hrows_r : r.glb.rows = bdim a.nscen mu0.length := by
        rw [hr]; rfl
      have hrows_a : ae.glb.rows = bdim a.nscen mu0.length := by
        rw [ha]; rfl
      have hrows_rd : r.dir.rows = bdim a.nscen mu0.length := by
        rw [hr]; rfl
      have hrows_ad : ae.dir.rows = bdim a.nscen mu0.length := by
        rw [ha]; rfl
      have hcols_r : r.glb.cols = wvln_um.length := by
        rw [hr]; rfl
      have hcols_a : ae.glb.cols = wvln_um.length := by
        rw [ha]; rfl
      have hcols_rd : r.dir.cols = wvln_um.length := by
        rw [hr]; rfl
      have hcols_ad : ae.dir.cols = wvln_um.length := by
        rw [ha]; rfl
      refine ⟨?_, ?_, ?_, ?_⟩
      · simp only [Arr2.bmul, Arr2.bent, hrows_r, hrows_a, hcols_r, hcols_a,
          bcastIdx_of_lt hi, bcastIdx_of_lt hj]
      · simp only [Arr2.bmul, Arr2.bent, hrows_rd, hrows_ad, hcols_rd, hcols_ad,
          bcastIdx_of_lt hi, bcastIdx_of_lt hj]
      · simp only [Arr2.bsub, Arr2.bmul, Arr2.bent, hrows_r, hrows_a, hcols_r,
          hcols_a, hrows_rd, hrows_ad, hcols_rd, hcols_ad, bdim_self,
          bcastIdx_of_lt hi, bcastIdx_of_lt hj]
      · intro hrb hi'
        subst hrb
        have halb_r : r.salb.getD Arr2.zero = a.tau_rayleigh_salb wvln_um := by
          rw [hr]
          rfl
        have halb_a : ae.salb.getD Arr2.zero = a.tau_aerosols_salb wvln_um := by
          rw [ha]
          rfl
        simp only [TrnOut.alb, if_pos, Option.getD_some]
        rw [halb_r, halb_a]
        have hrows_sr : (a.tau_rayleigh_salb wvln_um).rows = a.nscen := rfl
        have hrows_sa : (a.tau_aerosols_salb wvln_um).rows = a.nscen := rfl
        have hcols_sr : (a.tau_rayleigh_salb wvln_um).cols = wvln_um.length := rfl
        have hcols_sa : (a.tau_aerosols_salb wvln_um).cols = wvln_um.length := rfl
        simp only [Arr2.badd, Arr2.bent, hrows_sr, hrows_sa, hcols_sr, hcols_sa,
          bcastIdx_of_lt hi', bcastIdx_of_lt hj]

/-- Witness for C3 at a concrete single-scenario call with albedo. -/
theorem trn_mixture_uncoupled_product_witness :
    exIsOk (atmEx1.trn_mixture [1] [1] true false) = true ∧
    (0 : ℕ) < bdim atmEx1.nscen ([(1 : ℝ)]).length ∧
    (exGet (atmEx1.trn_mixture [1] [1] true false) trnDefault).dif.ent 0 0 =
      (exGet (atmEx1.trn_mixture [1] [1] true false) trnDefault).glb.ent 0 0 -
        (exGet (atmEx1.trn_mixture [1] [1] true false) trnDefault).dir.ent 0 0 := by
  refine ⟨rfl, by decide, ?_⟩
  exact (trn_mixture_uncoupled_product atmEx1 [1] [1] true _
    (ok_of_isOk trnDefault rfl) 0 0 (by decide) (by decide)).2.2.1

/-- ## C2.
In `trn_aerosols` with coupling, the Rayleigh and aerosol optical depths
are summed into `tau_total = tau_ray + tau_aer` before the Ambartsumian
two-stream formula is applied, the effective parameters are
`g_eff = tau_aer g / tau_total` and
`w0_eff = (tau_ray + w0 tau_aer) / tau_total`, and the returned
atmospheric albedo is the sum of the Rayleigh and aerosol contributions. -/
theorem trn_aerosols_coupling_effective (a : Atmosphere) (wvln_um : List ℚ)
    (mu0 : List ℝ) (t : TrnOut)
    (h : a.trn_aerosols wvln_um mu0 true true = .ok t) (i j : ℕ)
    (_hi : i < bdim a.nscen mu0.length) (hj : j < wvln_um.length) :
    t.glb.ent i j =
      ambGlb
        ((a.tau_rayleigh wvln_um).ent (bcastIdx a.nscen i) j +
          (a.tau_aerosols wvln_um).ent (bcastIdx a.nscen i) j)
        (((a.tau_rayleigh wvln_um).ent (bcastIdx a.nscen i) j +
            ((a.w0.getD (bcastIdx a.nscen i) 0 : ℚ) : ℝ) *
              (a.tau_aerosols wvln_um).ent (bcastIdx a.nscen i) j) /
          ((a.tau_rayleigh wvln_um).ent (bcastIdx a.nscen i) j +
            (a.tau_aerosols wvln_um).ent (bcastIdx a.nscen i) j))
        ((a.tau_aerosols wvln_um).ent (bcastIdx a.nscen i) j *
            ((a.g.getD (bcastIdx a.nscen i) 0 : ℚ) : ℝ) /
          ((a.tau_rayleigh wvln_um).ent (bcastIdx a.nscen i) j +
            (a.tau_aerosols wvln_um).ent (bcastIdx a.nscen i) j))
        (mu0At mu0 i) ∧
    t.dir.ent i j =
      Real.exp (-1 *
        ((a.tau_rayleigh wvln_um).ent (bcastIdx a.nscen i) j +
          (a.tau_aerosols wvln_um).ent (bcastIdx a.nscen i) j) / mu0At mu0 i) ∧
    (i < a.nscen →
      t.alb.ent i j = (a.tau_rayleigh_salb wvln_um).ent i j +
        (a.tau_aerosols_salb wvln_um).ent i j) := by
  obtain ⟨-, ht⟩ := trn_aerosols_ok h
  subst ht
  refine ⟨?_, ?_, ?_⟩
  · simp only [Atmosphere.trn_aerosols_core, Atmosphere.aerTau,
      Atmosphere.aerW0, Atmosphere.aerG, if_pos]
  · simp only [Atmosphere.trn_aerosols_core, Atmosphere.aerTau, if_pos]
  · intro hi'
    simp only [Atmosphere.trn_aerosols_core, TrnOut.alb, if_pos,
      Option.getD_some]
    have hrows_sr : (a.tau_rayleigh_salb wvln_um).rows = a.nscen := rfl
    have hrows_sa : (a.tau_aerosols_salb wvln_um).rows = a.nscen := rfl
    have hcols_sr : (a.tau_rayleigh_salb wvln_um).cols = wvln_um.length := rfl
    have hcols_sa : (a.tau_aerosols_salb wvln_um).cols = wvln_um.length := rfl
    simp only [Arr2.badd, Arr2.bent, hrows_sr, hrows_sa, hcols_sr, hcols_sa,
      bcastIdx_of_lt hi', bcastIdx_of_lt hj]

/-- Witness for C2 at a concrete single-scenario coupled call. -/
theorem trn_aerosols_coupling_effective_witness :
    exIsOk (atmEx1.trn_aerosols [1] [1] true true) = true ∧
    (0 : ℕ) < bdim atmEx1.nscen ([(1 : ℝ)]).length ∧
    (exGet (atmEx1.trn_aerosols [1] [1] true true) trnDefault).dir.ent 0 0 =
      Real.exp (-1 *
        ((atmEx1.tau_rayleigh [1]).ent (bcastIdx atmEx1.nscen 0) 0 +
          (atmEx1.tau_aerosols [1]).ent (bcastIdx atmEx1.nscen 0) 0) /
        mu0At [1] 0) := by
  refine ⟨rfl, by decide, ?_⟩
  exact (trn_aerosols_coupling_effective atmEx1 [1] [1] _
    (ok_of_isOk trnDefault rfl) 0 0 (by decide) (by decide)).2.1

theorem NPIn.length_eq_of_shape {x y : NPIn} (h : x.shape = y.shape) :
    x.atleast1d.length = y.atleast1d.length := by
  cases x <;> cases y <;> simp_all [NPIn.shape, NPIn.atleast1d]

theorem NPIn.n1d_eq_length (x : NPIn) : x.n1d = x.atleast1d.length := by
  cases x <;> simp [NPIn.n1d, NPIn.atleast1d]

/-- ## C10 (amended).
Every successfully constructed Atmosphere stores the eight fields as 1-d
arrays of one common length `nscen` (which can be 0 for empty-sequence
inputs): scalar inputs are promoted to length-1 arrays, and omitted `w0`
and `g` are filled with 0.90 and 0.85 broadcast to that length.  The
engine operations are pure functions of the record and never modify it. -/
theorem atmosphere_new_invariant (p rho o3 h2o alpha beta : NPIn)
    (w0 g : Option NPIn) (atm : Atmosphere)
    (h : Atmosphere.new p rho o3 h2o alpha beta w0 g = .ok atm) :
    atm.p = p.atleast1d ∧ atm.rho = rho.atleast1d ∧ atm.o3 = o3.atleast1d ∧
    atm.h2o = h2o.atleast1d ∧ atm.alpha = alpha.atleast1d ∧
    atm.beta = beta.atleast1d ∧
    (w0 = none → atm.w0 = List.replicate atm.nscen (90 / 100 : ℚ)) ∧
    (∀ v, w0 = some v → atm.w0 = v.atleast1d) ∧
    (g = none → atm.g = List.replicate atm.nscen (85 / 100 : ℚ)) ∧
    (∀ u, g = some u → atm.g = u.atleast1d) ∧
    atm.rho.length = atm.nscen ∧ atm.o3.length = atm.nscen ∧
    atm.h2o.length = atm.nscen ∧ atm.alpha.length = atm.nscen ∧
    atm.beta.length = atm.nscen ∧ atm.w0.length = atm.nscen ∧
    atm.g.length = atm.nscen := by
  simp only [Atmosphere.new] at h
  split_ifs at h with c1 c2 c3 c4 c5 c6 c7 c8 c9
  injection h with h2
  subst h2
  simp only [List.any_eq_true, decide_eq_true_eq, not_exists, not_and] at c1
  have hshape : ∀ x : NPIn,
      x ∈ [p, rho, o3, h2o, alpha, beta] ++ (w0.toList ++ g.toList) →
      x.shape = p.shape := by
    intro x hx
    by_contra hne
    exact (c1 x hx) hne
  have hlen : ∀ x : NPIn,
      x ∈ [p, rho, o3, h2o, alpha, beta] ++ (w0.toList ++ g.toList) →
      x.atleast1d.length = p.atleast1d.length := by
    intro x hx
    exact NPIn.length_eq_of_shape (hshape x hx)
  have hn : (Atmosphere.nscen
      ⟨p.atleast1d, rho.atleast1d, o3.atleast1d, h2o.atleast1d,
       alpha.atleast1d, beta.atleast1d, fillW0 w0 p.n1d, fillG g p.n1d⟩) =
      p.atleast1d.length := rfl
  refine ⟨rfl, rfl, rfl, rfl, rfl, rfl, ?_, ?_, ?_, ?_, ?_, ?_, ?_, ?_, ?_, ?_, ?_⟩
  · intro hw
    subst hw
    show List.replicate p.n1d (90 / 100 : ℚ) = _
    rw [hn, NPIn.n1d_eq_length]
  · intro v hv
    subst hv
    rfl
  · intro hg
    subst hg
    show List.replicate p.n1d (85 / 100 : ℚ) = _
    rw [hn, NPIn.n1d_eq_length]
  · intro u hu
    subst hu
    rfl
  · exact hlen rho (by simp)
  · exact hlen o3 (by simp)
  · exact hlen h2o (by simp)
  · exact hlen alpha (by simp)
  · exact hlen beta (by simp)
  · show (fillW0 w0 p.n1d).length = _
    cases w0 with
    | none =>
        show (List.replicate p.n1d (90 / 100 : ℚ)).length = _
        rw [hn, NPIn.n1d_eq_length, List.length_replicate]
    | some v =>
        show v.atleast1d.length = _
        rw [hn]
        exact hlen v (by simp)
  · show (fillG g p.n1d).length = _
    cases g with
    | none =>
        show (List.replicate p.n1d (85 / 100 : ℚ)).length = _
        rw [hn, NPIn.n1d_eq_length, List.length_replicate]
    | some u =>
        show u.atleast1d.length = _
        rw [hn]
        exact hlen u (by simp)

/-- The Atmosphere built from all-empty 1-d inputs. -/
def atmEmpty : Atmosphere := ⟨[], [], [], [], [], [], [], []⟩

/-- The Fourier series of the geometric factor lies in [0.9661, 1.0351]
for every day value: the two harmonics have amplitudes
`sqrt(0.03422^2 + 0.00128^2) < 0.034245` and
`sqrt(0.000719^2 + 0.000077^2) < 0.000724`. -/
theorem geoFactorVal_bounds (d : ℚ) :
    0.9661 ≤ geoFactorVal d ∧ geoFactorVal d ≤ 1.0351 := by
  unfold geoFactorVal
  have h2c : Real.cos (dayAngle d * 2) = 2 * Real.cos (dayAngle d) ^ 2 - 1 := by
    rw [mul_comm]
    exact Real.cos_two_mul (dayAngle d)
  have h2s : Real.sin (dayAngle d * 2) =
      2 * Real.sin (dayAngle d) * Real.cos (dayAngle d) := by
    rw [mul_comm]
    exact Real.sin_two_mul (dayAngle d)
  rw [h2c, h2s]
  set c := Real.cos (dayAngle d) with hc
  set s := Real.sin (dayAngle d) with hs
  have hcs : s ^ 2 + c ^ 2 = 1 := Real.sin_sq_add_cos_sq (dayAngle d)
  have h4 : (2 * c ^ 2 - 1) ^ 2 + (2 * s * c) ^ 2 = 1 := by
    linear_combination (4 * c ^ 2) * hcs
  constructor
  · nlinarith [hcs, sq_nonneg (c + 0.999434), sq_nonneg (s + 0.035909),
      sq_nonneg (c + s + 1.035343)]
  · nlinarith [hcs, h4, sq_nonneg (0.03422 * s - 0.00128 * c),
      sq_nonneg (0.03422 * c + 0.00128 * s - 0.034245),
      sq_nonneg (0.000719 * (2 * s * c) - 0.000077 * (2 * c ^ 2 - 1)),
      sq_nonneg (0.000719 * (2 * c ^ 2 - 1) + 0.000077 * (2 * s * c) - 0.000724)]

/-- ## C6 (amended).
For a Geometry whose day values lie in [1, 366], every value returned by
`geometric_factor` lies within [0.9661, 1.0351] (at day 1 the series
reaches 1.035049, so the upper bound 1.0343 claimed by the spec is too
small). -/
theorem geometric_factor_range (geo : Geometry) (sq : Bool)
    (_hday : ∀ d ∈ geo.day, 1 ≤ d ∧ d ≤ 366) :
    ∀ x ∈ (geo.geometric_factor sq).data, 0.9661 ≤ x ∧ x ≤ 1.0351 := by
  intro x hx
  have hdata : (geo.geometric_factor sq).data = geo.day.map geoFactorVal := by
    unfold Geometry.geometric_factor
    split <;> rfl
  rw [hdata] at hx
  obtain ⟨d, -, rfl⟩ := List.mem_map.mp hx
  exact geoFactorVal_bounds d

/-- A one-scenario Geometry at the first Julian day. -/
def geoDay1 : Geometry := ⟨false, [1], [0], [0], [0], [1]⟩

/-- Counterexample to C6 as stated: at day 1 the geometric factor equals
1.00011 + 0.03422 + 0.000719 = 1.035049, which exceeds the claimed upper
bound 1.0343. -/
theorem geometric_factor_day1_cex :
    (∀ d ∈ geoDay1.day, 1 ≤ d ∧ d ≤ 366) ∧
    1.0343 < (geoDay1.geometric_factor true).data.getD 0 0 := by
  refine ⟨by decide, ?_⟩
  have hval : (geoDay1.geometric_factor true).data.getD 0 0 = geoFactorVal 1 := rfl
  rw [hval]
  have hda : dayAngle 1 = 0 := by
    unfold dayAngle
    norm_num
  unfold geoFactorVal
  rw [hda]
  norm_num [Real.cos_zero, Real.sin_zero]

/-- A one-scenario Geometry at day 100, used as witness input. -/
def geoDay100 : Geometry := ⟨false, [100], [0], [0], [0], [1]⟩

/-- A one-scenario 1-d Geometry at day 150, used as concrete input. -/
def geoSingle : Geometry := ⟨false, [150], [0], [0], [0], [1]⟩

/-- Counterexample to C7 as stated: `radtran` computes its Sun-Earth
factor column from the squeezed (default) call, not the non-squeezed one:
for a one-scenario geometry the squeezed factor is 0-dimensional, so the
`[:, None]` slice — and hence `radtran` itself — fails with an
`IndexError`, while the slice of the non-squeezed form would succeed. -/
theorem radtran_squeeze_cex :
    radtranFactor geoSingle ≠ colSlice (geoSingle.geometric_factor false) ∧
    radtranFactor geoSingle = .error "IndexError: too many indices for array" ∧
    exIsOk (colSlice (geoSingle.geometric_factor false)) = true ∧
    radtran geoSingle atmEx1 tblEx [(500, 1)] (300, 2600) true =
      .error "IndexError: too many indices for array" := by
  have h1 : radtranFactor geoSingle =
      .error "IndexError: too many indices for array" := rfl
  have h2 : colSlice (geoSingle.geometric_factor false) =
      .ok ⟨[1, 1, 1, 1], [geoFactorVal 150]⟩ := rfl
  refine ⟨?_, h1, rfl, rfl⟩
  rw [h1, h2]
  exact fun hcon => Except.noConfusion hcon

/-- ## C7 (amended).
`geometric_factor` with `squeeze` true removes single-element axes (no
axis of extent 1 remains), while the non-squeezed form is 3-dimensional;
`radtran` calls `geometric_factor` in its squeezed default form and
inserts the broadcast axis itself with `[:, None]`, which consequently
fails with an `IndexError` for scalar or single-scenario geometries. -/
theorem geometric_factor_squeeze_form (geo : Geometry) (atm : Atmosphere)
    (tbl : AbsTable) (toa : List (ℚ × ℚ)) (th : ℚ × ℚ) (coupling : Bool) :
    (1 ∉ (geo.geometric_factor true).shape) ∧
    (geo.geometric_factor false).shape.length = 3 ∧
    (geo.scalar = true ∨ geo.day.length = 1 →
      radtran geo atm tbl toa th coupling =
        .error "IndexError: too many indices for array") := by
  refine ⟨?_, rfl, ?_⟩
  · intro hmem
    unfold Geometry.geometric_factor at hmem
    rw [if_pos rfl] at hmem
    have := (List.mem_filter.mp hmem).2
    simp at this
  · intro hsc
    have hshape : (geo.geometric_factor true).shape = [] := by
      unfold Geometry.geometric_factor Geometry.rawShape
      rcases hsc with hs | hl
      · simp [hs]
      · by_cases hs2 : geo.scalar = true
        · simp [hs2]
        · simp [hs2, hl]
    have hfac : radtranFactor geo =
        .error "IndexError: too many indices for array" := by
      unfold radtranFactor colSlice
      rw [hshape]
    unfold radtran
    rw [hfac]

theorem bcastIdx_one (j : ℕ) : bcastIdx 1 j = 0 := by
  unfold bcastIdx
  simp

theorem bdim_one (n : ℕ) : bdim n 1 = n := by
  unfold bdim
  split <;> simp_all

theorem getD_map_lt (f : ℚ → ℝ) (l : List ℚ) (i : ℕ) (h : i < l.length) :
    (l.map f).getD i 0 = f (l.getD i 1) := by
  rw [List.getD_eq_getElem _ _ (by simpa using h), List.getD_eq_getElem _ _ h]
  simp

theorem radtranFactor_ok {geo : Geometry} {gfc : NDArray}
    (h : radtranFactor geo = .ok gfc) :
    geo.scalar = false ∧ geo.day.length ≠ 1 ∧
    gfc = ⟨[geo.day.length, 1], geo.day.map geoFactorVal⟩ := by
  unfold radtranFactor Geometry.geometric_factor Geometry.rawShape at h
  rw [if_pos rfl] at h
  by_cases hs : geo.scalar = true
  · rw [if_pos hs] at h
    exact absurd h (by simp [colSlice])
  · rw [if_neg hs] at h
    by_cases hl : geo.day.length = 1
    · rw [hl] at h
      exact absurd h (by simp [colSlice])
    · have hfil : List.filter (fun n => decide (n ≠ 1)) [geo.day.length] =
          [geo.day.length] := by
        simp [hl]
      rw [hfil] at h
      unfold colSlice at h
      injection h with h2
      exact ⟨by simpa using hs, hl, h2.symm⟩

theorem trn_mixture_ok_shapes {a : Atmosphere} {wv : List ℚ} {mu0 : List ℝ}
    {c : Bool} {t : TrnOut} (h : a.trn_mixture wv mu0 true c = .ok t) :
    t.glb.rows = bdim a.nscen mu0.length ∧ t.glb.cols = wv.length ∧
    t.dir.rows = bdim a.nscen mu0.length ∧ t.dir.cols = wv.length ∧
    t.alb.rows = a.nscen ∧ t.alb.cols = wv.length ∧ t.salb = some t.alb := by
  unfold Atmosphere.trn_mixture at h
  cases c with
  | true =>
    rw [if_pos rfl] at h
    obtain ⟨-, ht⟩ := trn_aerosols_ok h
    subst ht
    refine ⟨rfl, rfl, rfl, rfl, ?_, ?_, rfl⟩
    · show bdim a.nscen a.nscen = a.nscen
      exact bdim_self _
    · show bdim wv.length wv.length = wv.length
      exact bdim_self _
  | false =>
    rw [if_neg (by simp)] at h
    cases hR : a.trn_rayleigh wv mu0 true with
    | error e => rw [hR] at h; exact absurd h (by simp)
    | ok r =>
      cases hA : a.trn_aerosols wv mu0 true false with
      | error e => rw [hR, hA] at h; exact absurd h (by simp)
      | ok ae =>
        rw [hR, hA] at h
        injection h with h2
        obtain ⟨-, hr⟩ := trn_rayleigh_ok hR
        obtain ⟨-, ha⟩ := trn_aerosols_ok hA
        subst h2
        have hrr : r.glb.rows = bdim a.nscen mu0.length := by rw [hr]; rfl
        have hrc : r.glb.cols = wv.length := by rw [hr]; rfl
        have har : ae.glb.rows = bdim a.nscen mu0.length := by rw [ha]; rfl
        have hac : ae.glb.cols = wv.length := by rw [ha]; rfl
        have hrrd : r.dir.rows = bdim a.nscen mu0.length := by rw [hr]; rfl
        have hrcd : r.dir.cols = wv.length := by rw [hr]; rfl
        have hard : ae.dir.rows = bdim a.nscen mu0.length := by rw [ha]; rfl
        have hacd : ae.dir.cols = wv.length := by rw [ha]; rfl
        have hralb : r.salb.getD Arr2.zero = a.tau_rayleigh_salb wv := by
          rw [hr]; rfl
        have haalb : ae.salb.getD Arr2.zero = a.tau_aerosols_salb wv := by
          rw [ha]; rfl
        refine ⟨?_, ?_, ?_, ?_, ?_, ?_, rfl⟩
        · show bdim r.glb.rows ae.glb.rows = _
          rw [hrr, har, bdim_self]
        · show bdim r.glb.cols ae.glb.cols = _
          rw [hrc, hac, bdim_self]
        · show bdim r.dir.rows ae.dir.rows = _
          rw [hrrd, hard, bdim_self]
        · show bdim r.dir.cols ae.dir.cols = _
          rw [hrcd, hacd, bdim_self]
        · show bdim (r.salb.getD Arr2.zero).rows (ae.salb.getD Arr2.zero).rows =
            a.nscen
          rw [hralb, haalb]
          exact bdim_self _
        · show bdim (r.salb.getD Arr2.zero).cols (ae.salb.getD Arr2.zero).cols =
            wv.length
          rw [hralb, haalb]
          exact bdim_self _

theorem trn_mixture_ok_not_mismatch {a : Atmosphere} {wv : List ℚ}
    {mu0 : List ℝ} {rb c : Bool} {t : TrnOut}
    (h : a.trn_mixture wv mu0 rb c = .ok t) : ¬ a.mu0Mismatch mu0 := by
  unfold Atmosphere.trn_mixture at h
  cases c with
  | true =>
    rw [if_pos rfl] at h
    exact (trn_aerosols_ok h).1
  | false =>
    rw [if_neg (by simp)] at h
    cases hR : a.trn_rayleigh wv mu0 rb with
    | error e => rw [hR] at h; exact absurd h (by simp)
    | ok r => exact (trn_rayleigh_ok hR).1

/-- ## C1.
Whenever `radtran` returns, the three irradiance grids satisfy
`Iglb = I0 mu0 Tglb_mix Tgas A` with `A = 1 / (1 - rho albedo)`,
`Idir = I0 Tdir_mix Tgas`, and `Idif = Iglb - Idir mu0`, where `I0` is
the TOA irradiance filtered to the window and scaled by the geometric
factor, `Tglb_mix`/`Tdir_mix` and the albedo come from `trn_mixture`
with `return_albedo` set, and `Tgas = trn_water trn_ozone trn_oxygen`.
The per-scenario `rho` and albedo inside the amplification factor are
read at `bcastIdx atm.nscen i`, which is `i` when the scenario counts
match and 0 for a single-scenario Atmosphere broadcast against a
multi-scenario Geometry — exactly NumPy's broadcasting of the
`(nscen, 1)`-shaped `rho[:, None]` within the pipeline. -/
theorem radtran_combination (geo : Geometry) (atm : Atmosphere) (tbl : AbsTable)
    (toa : List (ℚ × ℚ)) (th : ℚ × ℚ) (coupling : Bool) (out : RadtranOut)
    (hwf : geo.Wf)
    (h : radtran geo atm tbl toa th coupling = .ok out)
    (i j : ℕ) (hi : i < geo.mu0.length) (hj : j < (toaWvln toa th).length) :
    out.glb.ent i j =
      ((((toaFilter toa th).map Prod.snd).getD j 0 : ℚ) : ℝ) *
        geoFactorVal (geo.day.getD i 1) * geo.mu0.getD i 0 *
        (exGet (atm.trn_mixture (toaWvlnUm toa th) geo.mu0 true coupling)
          trnDefault).glb.ent i j *
        ((exGet (atm.trn_water tbl (toaWvln toa th) geo.mu0) Arr2.zero).ent i j *
          (exGet (atm.trn_ozone tbl (toaWvln toa th) geo.mu0) Arr2.zero).ent i j *
          (exGet (atm.trn_oxygen tbl (toaWvln toa th) geo.mu0) Arr2.zero).ent i j) *
        (1 / (1 - ((atm.rho.getD (bcastIdx atm.nscen i) 0 : ℚ) : ℝ) *
          (exGet (atm.trn_mixture (toaWvlnUm toa th) geo.mu0 true coupling)
            trnDefault).alb.ent (bcastIdx atm.nscen i) j)) ∧
    out.dir.ent i j =
      ((((toaFilter toa th).map Prod.snd).getD j 0 : ℚ) : ℝ) *
        geoFactorVal (geo.day.getD i 1) *
        (exGet (atm.trn_mixture (toaWvlnUm toa th) geo.mu0 true coupling)
          trnDefault).dir.ent i j *
        ((exGet (atm.trn_water tbl (toaWvln toa th) geo.mu0) Arr2.zero).ent i j *
          (exGet (atm.trn_ozone tbl (toaWvln toa th) geo.mu0) Arr2.zero).ent i j *
          (exGet (atm.trn_oxygen tbl (toaWvln toa th) geo.mu0) Arr2.zero).ent i j) ∧
    out.dif.ent i j = out.glb.ent i j - out.dir.ent i j * geo.mu0.getD i 0 := by
  simp only [radtran] at h
  cases hgf : radtranFactor geo with
  | error e => rw [hgf] at h; exact absurd h (by simp)
  | ok gfc =>
  rw [hgf] at h
  obtain ⟨hscal, hne1, hgfc⟩ := radtranFactor_ok hgf
  subst hgfc
  cases hmix : atm.trn_mixture (toaWvlnUm toa th) geo.mu0 true coupling with
  | error e => rw [hmix] at h; exact absurd h (by simp)
  | ok mix =>
  rw [hmix] at h
  dsimp only at h
  obtain ⟨hmgr, hmgc, hmdr, hmdc, hmar, hmac, hmsome⟩ := trn_mixture_ok_shapes hmix
  cases hsalb : mix.salb with
  | none => rw [hsalb] at h; exact absurd h (by simp)
  | some alb =>
  rw [hsalb] at h
  dsimp only at h
  have halb : alb = mix.alb := by
    rw [hsalb] at hmsome
    exact Option.some.inj hmsome
  cases hTW : atm.trn_water tbl (toaWvln toa th) geo.mu0 with
  | error e => rw [hTW] at h; exact absurd h (by simp)
  | ok tw =>
  rw [hTW] at h
  obtain ⟨-, htw⟩ := trn_water_ok hTW
  cases hTZ : atm.trn_ozone tbl (toaWvln toa th) geo.mu0 with
  | error e => rw [hTZ] at h; exact absurd h (by simp)
  | ok toz =>
  rw [hTZ] at h
  obtain ⟨-, htz⟩ := trn_ozone_ok hTZ
  cases hTX : atm.trn_oxygen tbl (toaWvln toa th) geo.mu0 with
  | error e => rw [hTX] at h; exact absurd h (by simp)
  | ok tox =>
  rw [hTX] at h
  obtain ⟨-, htx⟩ := trn_oxygen_ok hTX
  dsimp only at h
  injection h with h2
  subst h2
  subst htw htz htx halb
  simp only [exGet]
  have hdn : geo.day.length = geo.mu0.length := hwf.1
  have hwcr : (atm.trn_water_core tbl (toaWvln toa th) geo.mu0).rows =
      bdim atm.nscen geo.mu0.length := rfl
  have hwcc : (atm.trn_water_core tbl (toaWvln toa th) geo.mu0).cols =
      (toaWvln toa th).length := rfl
  have hzcr : (atm.trn_ozone_core tbl (toaWvln toa th) geo.mu0).rows =
      bdim atm.nscen geo.mu0.length := rfl
  have hzcc : (atm.trn_ozone_core tbl (toaWvln toa th) geo.mu0).cols =
      (toaWvln toa th).length := rfl
  have hxcr : (Atmosphere.trn_oxygen_core atm tbl (toaWvln toa th) geo.mu0).rows =
      geo.mu0.length := rfl
  have hxcc : (Atmosphere.trn_oxygen_core atm tbl (toaWvln toa th) geo.mu0).cols =
      (toaWvln toa th).length := rfl
  have hum : (toaWvlnUm toa th).length = (toaWvln toa th).length :=
    List.length_map _ _
  have hnmu : geo.mu0.length ≠ 1 := hdn ▸ hne1
  have hmm := trn_mixture_ok_not_mismatch hmix
  have hbd : bdim atm.nscen geo.mu0.length = geo.mu0.length := by
    by_cases hm1 : atm.nscen = 1
    · unfold bdim
      rw [if_pos hm1]
    · unfold Atmosphere.mu0Mismatch at hmm
      push_neg at hmm
      have hlm := hmm hm1 hnmu
      rw [hlm]
      exact bdim_self _
  have hbdl : bdim geo.mu0.length atm.nscen = geo.mu0.length := by
    unfold bdim
    rw [if_neg hnmu]
  have hgfd : ∀ k : ℕ, k < geo.mu0.length →
      (geo.day.map geoFactorVal).getD k 0 = geoFactorVal (geo.day.getD k 1) := by
    intro k hk
    exact getD_map_lt _ _ _ (by rw [hdn]; exact hk)
  refine ⟨?_, ?_, ?_⟩
  · simp only [Arr2.bmul, Arr2.bent, NDArray.shape, List.headI, hwcr, hwcc,
      hzcr, hzcc, hxcr, hxcc, hmgr, hmgc, hum, hdn, hbd, hbdl,
      bdim_self, bdim_one, bcastIdx_one, bcastIdx_of_lt hi, bcastIdx_of_lt hj]
    rw [hgfd i hi]
  · simp only [Arr2.bmul, Arr2.bent, NDArray.shape, List.headI, hwcr, hwcc,
      hzcr, hzcc, hxcr, hxcc, hmdr, hmdc, hum, hdn, hbd, hbdl,
      bdim_self, bdim_one, bcastIdx_one, bcastIdx_of_lt hi, bcastIdx_of_lt hj]
    rw [hgfd i hi]
  · simp only [Arr2.bmul, Arr2.bsub, Arr2.bent, NDArray.shape, List.headI,
      hwcr, hwcc, hzcr, hzcc, hxcr, hxcc, hmgr, hmgc, hmdr, hmdc,
      hum, hdn, hbd, hbdl, bdim_self, bdim_one, bcastIdx_one,
      bcastIdx_of_lt hi, bcastIdx_of_lt hj]

/-- A two-scenario Geometry used as concrete `radtran` input. -/
def geoW1 : Geometry := ⟨false, [100, 200], [0, 0], [0, 0], [0, 0], [1, 1]⟩

/-- Witness for C1 at a concrete run pairing a single-scenario Atmosphere
with a two-scenario Geometry: the `mu0` shape check is skipped for
`nscen = 1` and the pipeline result is produced by broadcasting. -/
theorem radtran_combination_witness :
    geoW1.Wf ∧ atmEx1.nscen ≠ geoW1.mu0.length ∧
    exIsOk (radtran geoW1 atmEx1 tblEx [(500, 1)] (300, 2600) true) = true ∧
    (exGet (radtran geoW1 atmEx1 tblEx [(500, 1)] (300, 2600) true)
        radDefault).dif.ent 1 0 =
      (exGet (radtran geoW1 atmEx1 tblEx [(500, 1)] (300, 2600) true)
          radDefault).glb.ent 1 0 -
        (exGet (radtran geoW1 atmEx1 tblEx [(500, 1)] (300, 2600) true)
            radDefault).dir.ent 1 0 * geoW1.mu0.getD 1 0 := by
  refine ⟨by decide, by decide, rfl, ?_⟩
  exact (radtran_combination geoW1 atmEx1 tblEx [(500, 1)] (300, 2600) true _
    (by decide) (ok_of_isOk radDefault rfl) 1 0 (by decide)
    (by decide)).2.2

/-- Witness for amended C7 at a concrete one-scenario geometry. -/
theorem geometric_factor_squeeze_form_witness :
    (1 ∉ (geoSingle.geometric_factor true).shape) ∧
    radtran geoSingle atmEx2 tblEx [] (300, 2600) false =
      .error "IndexError: too many indices for array" := by
  refine ⟨?_, ?_⟩
  · exact (geometric_factor_squeeze_form geoSingle atmEx2 tblEx [] (300, 2600)
      false).1
  · exact (geometric_factor_squeeze_form geoSingle atmEx2 tblEx [] (300, 2600)
      false).2.2 (Or.inr rfl)

/-- Witness for amended C6 at a concrete geometry. -/
theorem geometric_factor_range_witness :
    (∀ d ∈ geoDay100.day, 1 ≤ d ∧ d ≤ 366) ∧
    (0.9661 ≤ geoFactorVal 100 ∧ geoFactorVal 100 ≤ 1.0351) := by
  refine ⟨by decide, ?_⟩
  exact geometric_factor_range geoDay100 true (by decide) (geoFactorVal 100)
    (by simp [geoDay100, Geometry.geometric_factor, Geometry.rawShape])

/-- Counterexample to C10 as stated: all-empty 1-d inputs are accepted
(every range check passes vacuously), producing an Atmosphere whose
common field length `nscen` is 0, not `>= 1`. -/
theorem atmosphere_new_empty_cex :
    Atmosphere.new (.vector []) (.vector []) (.vector []) (.vector [])
      (.vector []) (.vector []) none none = .ok atmEmpty ∧
    ¬ 1 ≤ atmEmpty.nscen := by
  exact ⟨rfl, by decide⟩

/-- Witness for amended C10: scalar inputs with omitted `w0`/`g` produce
length-1 fields with the defaults broadcast. -/
theorem atmosphere_new_invariant_witness :
    exIsOk (Atmosphere.new (.scalar 800) (.scalar 0) (.scalar 300) (.scalar 0)
      (.scalar 1) (.scalar 0) none none) = true ∧
    (exGet (Atmosphere.new (.scalar 800) (.scalar 0) (.scalar 300) (.scalar 0)
        (.scalar 1) (.scalar 0) none none) atmEx1).w0 =
      List.replicate (exGet (Atmosphere.new (.scalar 800) (.scalar 0)
        (.scalar 300) (.scalar 0) (.scalar 1) (.scalar 0) none none)
        atmEx1).nscen (90 / 100 : ℚ) := by
  refine ⟨rfl, ?_⟩
  exact (atmosphere_new_invariant (.scalar 800) (.scalar 0) (.scalar 300)
    (.scalar 0) (.scalar 1) (.scalar 0) none none _
    (ok_of_isOk atmEx1 rfl)).2.2.2.2.2.2.1 rfl

end SSolar
